import Mathlib

/-!
Verification of the pycard rummy engine (card/deck model, meld engine,
scoring, turn loop) against its natural-language specification.

The definitions below are a shallow embedding of the Python sources
`src/pycard/model/deck.py`, `src/pycard/model/game.py`,
`src/pycard/agent/base.py` and `src/pycard/agent/human.py`.
Python exceptions are modelled with `Except PyErr`; machine-level
behaviours of Python builtins (list subscripting with a `str` index,
tuple iteration, `str.split`, `list.remove`) are modelled explicitly
and documented where they occur.
-/

/-- Python exception kinds raised by the modelled code paths. -/
inductive PyErr : Type
  | valueError
  | keyError
  | typeError
  | indexError
deriving DecidableEq

/-- The `Suit` enum of `deck.py`; member order is the enum definition
order `diamonds, hearts, clubs, spades`. -/
inductive Suit : Type
  | diamonds
  | hearts
  | clubs
  | spades
deriving DecidableEq

/-- The `Card` namedtuple: a rank string (as in `RANK_MAP`) and a suit.
Equality is componentwise, as for Python namedtuples. -/
structure Card : Type where
  rank : String
  suit : Suit
deriving DecidableEq

instance exceptDecEq {e a : Type} [DecidableEq e] [DecidableEq a] : DecidableEq (Except e a) :=
  fun x y =>
    match x, y with
    | Except.ok u, Except.ok v =>
        if h : u = v then Decidable.isTrue (by rw [h])
        else Decidable.isFalse (fun hc => h (Except.ok.inj hc))
    | Except.error u, Except.error v =>
        if h : u = v then Decidable.isTrue (by rw [h])
        else Decidable.isFalse (fun hc => h (Except.error.inj hc))
    | Except.ok _, Except.error _ => Decidable.isFalse (fun hc => Except.noConfusion hc)
    | Except.error _, Except.ok _ => Decidable.isFalse (fun hc => Except.noConfusion hc)

/-- `RANK_MAP` of `deck.py`, as an association list in insertion order:
the ordering values 2..14 used for run adjacency. -/
def RANK_MAP : List (String × Nat) :=
  [("2", 2), ("3", 3), ("4", 4), ("5", 5), ("6", 6), ("7", 7), ("8", 8),
   ("9", 9), ("10", 10), ("J", 11), ("Q", 12), ("K", 13), ("A", 14)]

/-- `CARD_VALUE_MAP` of `deck.py`: the point values used for scoring
(digits face value, J/Q/K ten, A fifteen). -/
def CARD_VALUE_MAP : List (String × Nat) :=
  [("2", 2), ("3", 3), ("4", 4), ("5", 5), ("6", 6), ("7", 7), ("8", 8),
   ("9", 9), ("10", 10), ("J", 10), ("Q", 10), ("K", 10), ("A", 15)]

def lookupStr : List (String × Nat) → String → Option Nat
  | [], _ => none
  | (k, v) :: rest, r => if k = r then some v else lookupStr rest r

/-- Python `RANK_MAP[r]`: value on a known rank, `KeyError` otherwise. -/
def rankValE (r : String) : Except PyErr Nat :=
  match lookupStr RANK_MAP r with
  | some v => Except.ok v
  | none => Except.error PyErr.keyError

/-- Python `CARD_VALUE_MAP[r]`: value on a known rank, `KeyError` otherwise. -/
def cardValE (r : String) : Except PyErr Nat :=
  match lookupStr CARD_VALUE_MAP r with
  | some v => Except.ok v
  | none => Except.error PyErr.keyError

/-- The keys of `RANK_MAP` in insertion order (Python dict key order). -/
def RANK_KEYS : List String :=
  ["2", "3", "4", "5", "6", "7", "8", "9", "10", "J", "Q", "K", "A"]

/-- `SUITS` of `deck.py`: the single-letter suit tokens. -/
def SUITS : List Char := ['H', 'S', 'C', 'D']

/-- Iteration order of the `Suit` enum (definition order). -/
def SUIT_MEMBERS : List Suit := [Suit.diamonds, Suit.hearts, Suit.clubs, Suit.spades]

/-- The default deck contents built by `Deck.__init__` when `cards` is
falsy: `[Card(r, s) for r in RANK_MAP.keys() for s in Suit]`. -/
def defaultCards : List Card :=
  RANK_KEYS.flatMap (fun r => SUIT_MEMBERS.map (fun s => ⟨r, s⟩))

/-- `Deck.__init__`: the constructor tests `if not cards`, so both a
missing argument and an empty list (both falsy) produce the default
52-card deck; only a non-empty list is kept as given. -/
def deckInit : Option (List Card) → List Card
  | none => defaultCards
  | some [] => defaultCards
  | some (c :: rest) => c :: rest

/-- `Deck.DECK_SIZE`, a class constant. -/
def DECK_SIZE : Nat := 52

/-- The hands built by `Deck.deal`: hand `i` is the slice
`self._cards[i*count : i*count+count]`. -/
def dealHands (cards : List Card) (count players : Nat) : List (List Card) :=
  (List.range players).map (fun i => (cards.drop (i * count)).take count)

namespace Deck

/-- `Deck.deal(count, players)`: raises `ValueError` when
`count * players > self.DECK_SIZE` (the constant 52, not the actual
number of cards); otherwise returns the sliced hands and a new deck
built by `Deck(cards=self._cards[count*players:])` (hence `deckInit`,
which turns an empty remainder into a full default deck). -/
def deal (cards : List Card) (count players : Nat) :
    Except PyErr (List (List Card) × List Card) :=
  if count * players > DECK_SIZE then Except.error PyErr.valueError
  else Except.ok (dealHands cards count players, deckInit (some (cards.drop (count * players))))

end Deck

/-- The letter printed for each suit by `ascii_display_card`
(`suitmap` applied to `card.suit.name`). -/
def suitLetter : Suit → String
  | Suit.diamonds => "D"
  | Suit.spades => "S"
  | Suit.clubs => "C"
  | Suit.hearts => "H"

/-- `ascii_display_card(card)`: the f-string `{card.rank}{suitmap[...]}`. -/
def ascii_display_card (c : Card) : String :=
  c.rank ++ suitLetter c.suit

/-- The `mapper` dict of `string_to_card`. Only reached for characters
in `SUITS`; the catch-all arm is exactly the `'D'` entry. -/
def suitOfChar : Char → Suit
  | 'C' => Suit.clubs
  | 'H' => Suit.hearts
  | 'S' => Suit.spades
  | _ => Suit.diamonds

/-- Tail of `string_to_card` after splitting the token: validity check
`(rank not in RANK_MAP.keys()) or (suit not in SUITS)` raising
`ValueError`, then the `mapper` lookup. -/
def mkParsedCard (rank : String) (su : Char) : Except PyErr Card :=
  if rank ∈ RANK_KEYS ∧ su ∈ SUITS then Except.ok ⟨rank, suitOfChar su⟩
  else Except.error PyErr.valueError

/-- `string_to_card(card_str)`: length-2 tokens split as
`card_str[0], card_str[1]`, length-3 tokens as `card_str[:2],
card_str[2]`, anything else raises `ValueError`. -/
def string_to_card (s : String) : Except PyErr Card :=
  match s.toList with
  | [r1, su] => mkParsedCard (String.mk [r1]) su
  | [r1, r2, su] => mkParsedCard (String.mk [r1, r2]) su
  | _ => Except.error PyErr.valueError

/-! ## Game-state model (`game.py`, `human.py`, `base.py`) -/

/-- A meld record as stored in an agent's `melds` list. The two agent
variants store different shapes: `Human.meld` appends the tuple
`(cards, ref)`, while `DummyAgent.meld` appends a bare card list. -/
inductive MeldRec : Type
  | plain (cards : List Card)
  | tagged (cards : List Card) (ref : Option String)
deriving DecidableEq

/-- The per-player state held by an `Agent`: `hand` and `melds`. -/
structure PlayerSt : Type where
  hand : List Card
  melds : List MeldRec
deriving DecidableEq

/-- The `Game` state: the `players` dict (insertion-ordered association
list keyed by name), the `stock` deck's cards, and the discard pile. -/
structure GameSt : Type where
  players : List (String × PlayerSt)
  stock : List Card
  discardPile : List Card
deriving DecidableEq

/-- Python dict lookup `players[name]` over the association list. -/
def lookupAssoc : List (String × PlayerSt) → String → Option PlayerSt
  | [], _ => none
  | (n, p) :: rest, k => if n = k then some p else lookupAssoc rest k

/-- Replace the entry of a named player (dict item assignment). -/
def updateAssoc (ps : List (String × PlayerSt)) (k : String) (v : PlayerSt) :
    List (String × PlayerSt) :=
  ps.map (fun q => if q.1 = k then (k, v) else q)

/-- Stable ascending insertion: models the placement of one element by
Python's stable `sorted`. -/
def insertSorted {a : Type} (le : a → a → Bool) (x : a) : List a → List a
  | [] => [x]
  | y :: l => if le x y then x :: y :: l else y :: insertSorted le x l

/-- Stable sort with a boolean "may come before" comparator; extensionally
the same list as Python's stable `sorted` with the matching key. -/
def sortStable {a : Type} (le : a → a → Bool) : List a → List a
  | [] => []
  | x :: l => insertSorted le x (sortStable le l)

/-- Python `str.split(sep)` for a one-character separator, on the
character list of the string. -/
def pySplit (sep : Char) : List Char → List (List Char)
  | [] => [[]]
  | c :: rest =>
      match pySplit sep rest with
      | [] => [[]]
      | h :: t => if c = sep then [] :: h :: t else (c :: h) :: t

/-- `ref.split(':')` of `Game.validate_meld`. -/
def splitColon (s : String) : List String :=
  (pySplit ':' s.toList).map String.mk

/-- The ordering values `[RANK_MAP[x.rank] for x in cards]`, raising
`KeyError` on an unknown rank. -/
def rankValsOf : List Card → Except PyErr (List Nat)
  | [] => Except.ok []
  | c :: rest =>
      match rankValE c.rank with
      | Except.error e => Except.error e
      | Except.ok v =>
          match rankValsOf rest with
          | Except.error e => Except.error e
          | Except.ok t => Except.ok (v :: t)

/-- The legality body of `Game.validate_meld` (`game.py` variant) after
the reference handling: size `< 3` fails; all ranks equal is a set; a
single suit with sorted ordering values increasing by exactly 1 is a
run; anything else fails. -/
def check_meld_cards (cards : List Card) : Except PyErr Bool :=
  if cards.length < 3 then Except.ok false
  else
    match rankValsOf cards with
    | Except.error e => Except.error e
    | Except.ok vs =>
        let rank_vals := sortStable (fun x y => Nat.ble x y) vs
        if rank_vals.dedup.length == 1 then Except.ok true
        else
          let dists := List.zipWith (fun x y => (x : Int) - (y : Int)) rank_vals.tail rank_vals
          let suits := (cards.map (fun c => c.suit)).dedup
          if suits.length == 1 && dists.all (fun d => d == 1) then Except.ok true
          else Except.ok false

/-- Python truthiness of the `ref` component: `if ref:` is false for
`None` and for the empty string. -/
def truthyRef : Option String → Option String
  | none => none
  | some r => if r = "" then none else some r

/-- The reference branch of `Game.validate_meld`: the source runs
`player, index = ref.split(':')` (a `ValueError` unless the split has
exactly two parts), then `self.players[player]` (`KeyError` for an
unknown name), then `self.players[player].melds[index]`. `index` is
still a `str` there, and subscripting a Python list with a `str`
raises `TypeError` unconditionally — so every call with a truthy
reference raises, before `cards.extend(addtl_cards)` is reached.
This function gives the exception each such call raises. -/
def layoff_error (players : List (String × PlayerSt)) (r : String) : PyErr :=
  match splitColon r with
  | [pname, _] =>
      match lookupAssoc players pname with
      | none => PyErr.keyError
      | some _ => PyErr.typeError
  | _ => PyErr.valueError

/-- `Game.validate_meld(meld)` where `meld = (cards, ref)`. A truthy
reference always raises (see `layoff_error`); without one the legality
body runs on the proposed cards. The result pairs the boolean with the
final contents of the caller-visible `cards` list (which
`cards.extend` would have mutated in place had it been reached). -/
def validate_meld (players : List (String × PlayerSt)) (meld : List Card × Option String) :
    Except PyErr (Bool × List Card) :=
  match meld with
  | (cards, ref) =>
      match truthyRef ref with
      | none =>
          match check_meld_cards cards with
          | Except.error e => Except.error e
          | Except.ok b => Except.ok (b, cards)
      | some r => Except.error (layoff_error players r)

/-- Python `list.remove(c)`: drop the first element equal to `c`,
`ValueError` when no element matches. -/
def removeFirst (hand : List Card) (c : Card) : Except PyErr (List Card) :=
  match hand with
  | [] => Except.error PyErr.valueError
  | h :: t =>
      if h = c then Except.ok t
      else
        match removeFirst t c with
        | Except.error e => Except.error e
        | Except.ok t2 => Except.ok (h :: t2)

/-- The loop `for card in cards: self.hand.remove(card)`. -/
def removeAll (hand : List Card) : List Card → Except PyErr (List Card)
  | [] => Except.ok hand
  | c :: rest =>
      match removeFirst hand c with
      | Except.error e => Except.error e
      | Except.ok h2 => removeAll h2 rest

/-- One accepted-or-rejected meld attempt inside `Human.meld`: validate
the proposed `(cards, ref)`; on `True` remove each element of the
(now possibly extended) `cards` list from the hand and append the meld
tuple; on `False` re-prompt with no state change. The acting player is
addressed by name (`self` is always present in the players dict; the
`keyError` arm for a missing actor is unreachable in the source). -/
def human_meld_attempt (g : GameSt) (actor : String) (cards : List Card)
    (ref : Option String) : Except PyErr GameSt :=
  match validate_meld g.players (cards, ref) with
  | Except.error e => Except.error e
  | Except.ok (ok, cards2) =>
      if ok then
        match lookupAssoc g.players actor with
        | none => Except.error PyErr.keyError
        | some p =>
            match removeAll p.hand cards2 with
            | Except.error e => Except.error e
            | Except.ok newHand =>
                let p2 : PlayerSt := { hand := newHand, melds := p.melds ++ [MeldRec.tagged cards2 ref] }
                Except.ok { g with players := updateAssoc g.players actor p2 }
      else Except.ok g

/-! ## Scoring (`Game.score_players`, `game.py`) -/

/-- Left-to-right summation of `CARD_VALUE_MAP[...]` over a card list,
raising `KeyError` on the first unknown rank. -/
def sumCardValues : List Card → Nat → Except PyErr Nat
  | [], acc => Except.ok acc
  | c :: rest, acc =>
      match cardValE c.rank with
      | Except.error e => Except.error e
      | Except.ok v => sumCardValues rest (acc + v)

/-- `sum(CARD_VALUE_MAP[c[0]] for c in meld)` of `Game.score_players`.
For a bare card list (the `DummyAgent` format) each `c` is a `Card`
namedtuple, so `c[0]` is its rank field and the sum is the total point
value. For a `(cards, ref)` tuple (the `Human.meld` format) Python
iterates the pair itself: the first `c` is the card *list*, `c[0]` is
its first `Card` (an `IndexError` when the list is empty), and
`CARD_VALUE_MAP[Card(...)]` raises `KeyError` since no card is a key of
the value table. -/
def meld_score : MeldRec → Except PyErr Nat
  | MeldRec.plain cs => sumCardValues cs 0
  | MeldRec.tagged [] _ => Except.error PyErr.indexError
  | MeldRec.tagged (_ :: _) _ => Except.error PyErr.keyError

/-- The meld loop of `Game.score_players`, accumulating meld scores. -/
def sumMeldScores : List MeldRec → Nat → Except PyErr Nat
  | [], acc => Except.ok acc
  | m :: rest, acc =>
      match meld_score m with
      | Except.error e => Except.error e
      | Except.ok v => sumMeldScores rest (acc + v)

/-- The per-player body of `Game.score_players` (`game.py` variant):
meld points summed first, then the remaining hand's point values
(`CARD_VALUE_MAP[c.rank]`) subtracted. -/
def score_player (p : PlayerSt) : Except PyErr Int :=
  match sumMeldScores p.melds 0 with
  | Except.error e => Except.error e
  | Except.ok m =>
      match sumCardValues p.hand 0 with
      | Except.error e => Except.error e
      | Except.ok h2 => Except.ok ((m : Int) - (h2 : Int))

/-! ## Meld detection (`DummyAgent._find_meld`, `base.py`) -/

/-- Append a card to its key's group, preserving first-occurrence key
order and within-group card order (`defaultdict(list)` behaviour). -/
def addToGroups {k : Type} [DecidableEq k] (gs : List (k × List Card)) (key : k) (c : Card) :
    List (k × List Card) :=
  match gs with
  | [] => [(key, [c])]
  | (k2, l) :: t => if k2 = key then (k2, l ++ [c]) :: t else (k2, l) :: addToGroups t key c

/-- Group a hand by a key, in first-occurrence order. -/
def groupByKey {k : Type} [DecidableEq k] (key : Card → k) (hand : List Card) :
    List (k × List Card) :=
  hand.foldl (fun gs c => addToGroups gs (key c) c) []

/-- Pair each card with `CARD_VALUE_MAP[x.rank]` (the sort key of the
suit groups in `_find_meld`), left to right. -/
def keyedByValue : List Card → Except PyErr (List (Nat × Card))
  | [] => Except.ok []
  | c :: rest =>
      match cardValE c.rank with
      | Except.error e => Except.error e
      | Except.ok v =>
          match keyedByValue rest with
          | Except.error e => Except.error e
          | Except.ok t => Except.ok ((v, c) :: t)

/-- `sorted(v, key=lambda x: CARD_VALUE_MAP[x.rank])`: stable ascending
sort by point value. -/
def sortByValue (cs : List Card) : Except PyErr (List Card) :=
  match keyedByValue cs with
  | Except.error e => Except.error e
  | Except.ok keyed =>
      Except.ok ((sortStable (fun x y => Nat.ble x.1 y.1) keyed).map Prod.snd)

/-- One iteration of the scan loop in `get_ascending`: first the append
check `if end_run - start_run > 2: runs.append(cards[start_run:end_run])`,
then the adjacency test
`CARD_VALUE_MAP[c2.rank] - CARD_VALUE_MAP[c1.rank] == 1` (the `c2`
lookup is evaluated first), which either advances `end_run` or resets
both markers to `i + 1`. -/
def get_ascending_step (cards : List Card) (st : List (List Card) × Nat × Nat)
    (p : Nat × Card × Card) : Except PyErr (List (List Card) × Nat × Nat) :=
  match st, p with
  | (runs, sr, er), (i, c1, c2) =>
      let runs2 := if er - sr > 2 then runs ++ [(cards.drop sr).take (er - sr)] else runs
      match cardValE c2.rank with
      | Except.error e => Except.error e
      | Except.ok v2 =>
          match cardValE c1.rank with
          | Except.error e => Except.error e
          | Except.ok v1 =>
              if (v2 : Int) - (v1 : Int) = 1 then Except.ok (runs2, sr, er + 1)
              else Except.ok (runs2, i + 1, i + 1)

/-- Fold of `get_ascending_step` over `enumerate(zip(cards, cards[1:]))`. -/
def get_ascending_go (cards : List Card) :
    List (Nat × Card × Card) → (List (List Card) × Nat × Nat) →
    Except PyErr (List (List Card) × Nat × Nat)
  | [], st => Except.ok st
  | p :: rest, st =>
      match get_ascending_step cards st p with
      | Except.error e => Except.error e
      | Except.ok st2 => get_ascending_go cards rest st2

/-- `get_ascending` of `DummyAgent._find_meld`: scans adjacent pairs of
the (already sorted) suit group and returns the `runs` accumulator. Note
that the source only ever appends inside the loop and never after it. -/
def get_ascending (cards : List Card) : Except PyErr (List (List Card)) :=
  match get_ascending_go cards ((cards.zip cards.tail).enum) ([], 0, 0) with
  | Except.error e => Except.error e
  | Except.ok st => Except.ok st.1

/-- `sorted(...)` applied to each suit group (the dict comprehension in
`_find_meld`). -/
def sortAllByValue : List (List Card) → Except PyErr (List (List Card))
  | [] => Except.ok []
  | g :: rest =>
      match sortByValue g with
      | Except.error e => Except.error e
      | Except.ok g2 =>
          match sortAllByValue rest with
          | Except.error e => Except.error e
          | Except.ok t => Except.ok (g2 :: t)

/-- `get_ascending` applied to each sorted suit group. -/
def runsOfGroups : List (List Card) → Except PyErr (List (List (List Card)))
  | [] => Except.ok []
  | g :: rest =>
      match get_ascending g with
      | Except.error e => Except.error e
      | Except.ok rs =>
          match runsOfGroups rest with
          | Except.error e => Except.error e
          | Except.ok t => Except.ok (rs :: t)

namespace DummyAgent

/-- `DummyAgent._find_meld`: rank groups of size at least 3 become set
candidates; each suit group is sorted by point value and scanned by
`get_ascending` for run candidates; the combined list is returned in
stable descending order of length (`sorted(melds, key=len,
reverse=True)`). Extending `melds` with an empty `runs` list is a
no-op, so the `if runs:` guard of the source needs no separate arm. -/
def find_meld (hand : List Card) : Except PyErr (List (List Card)) :=
  let setGroups := groupByKey (fun c => c.rank) hand
  let setMelds := (setGroups.map Prod.snd).filter (fun s => decide (3 ≤ s.length))
  let suitGroups := (groupByKey (fun c => c.suit) hand).map Prod.snd
  match sortAllByValue suitGroups with
  | Except.error e => Except.error e
  | Except.ok sortedGroups =>
      match runsOfGroups sortedGroups with
      | Except.error e => Except.error e
      | Except.ok runLists =>
          Except.ok (sortStable (fun x y => Nat.ble y.length x.length) (setMelds ++ runLists.flatten))

end DummyAgent

/-! ## The main loop (`Game.play`, `game.py`) -/

/-- `player.hand` of the named player (names are unique dict keys, so
lookup by name agrees with the loop variable of `Game.play`). -/
def handOf (g : GameSt) (p : String) : List Card :=
  match lookupAssoc g.players p with
  | some st => st.hand
  | none => []

/-- The game-over test of `Game.play`, run right after a player's turn:
`(len(player.hand) == 0) or (len(self.stock) == 0)`. -/
def trigger (g : GameSt) (p : String) : Bool :=
  ((handOf g p).length == 0) || (g.stock.length == 0)

/-- Run the turns of a list of players in order, with `turnF` standing
for `Game.play_turn` (draw, meld, discard; its effect depends on agent
input, so it is a parameter of the model). -/
def runPre (turnF : String → GameSt → GameSt) : List String → GameSt → GameSt
  | [], g => g
  | p :: rest, g => runPre turnF rest (turnF p g)

/-- One round of the `for` loop inside `Game.play`: each player in order
takes a turn, and directly afterwards the game-over test runs; on
success the loop stops (`sys.exit`), otherwise the next player acts.
Returns the players who acted, the final state, and whether the game
ended inside the round. -/
def playRound (turnF : String → GameSt → GameSt) :
    List String → GameSt → List String × GameSt × Bool
  | [], g => ([], g, false)
  | p :: rest, g =>
      let g1 := turnF p g
      if trigger g1 p then ([p], g1, true)
      else
        let r := playRound turnF rest g1
        (p :: r.1, r.2.1, r.2.2)

/-! ## Concrete cards and scenarios used by the claims -/

def c3H : Card := ⟨"3", Suit.hearts⟩

def c4H : Card := ⟨"4", Suit.hearts⟩

def c5H : Card := ⟨"5", Suit.hearts⟩

def c7H : Card := ⟨"7", Suit.hearts⟩

def c4C : Card := ⟨"4", Suit.clubs⟩

def c5C : Card := ⟨"5", Suit.clubs⟩

def c6C : Card := ⟨"6", Suit.clubs⟩

def c7C : Card := ⟨"7", Suit.clubs⟩

def c7D : Card := ⟨"7", Suit.diamonds⟩

def c10H : Card := ⟨"10", Suit.hearts⟩

def c10S : Card := ⟨"10", Suit.spades⟩

def c10C : Card := ⟨"10", Suit.clubs⟩

def cAS : Card := ⟨"A", Suit.spades⟩

def c2D : Card := ⟨"2", Suit.diamonds⟩

/-- A game in which player `p0` has the existing run `[4C,5C,6C]` on the
table (meld index 0) and the card `7C` in hand. -/
def g2 : GameSt :=
  { players := [("p0", { hand := [c7C], melds := [MeldRec.tagged [c4C, c5C, c6C] none] })],
    stock := [c2D], discardPile := [] }

/-- A five-card deck (the first five default cards). -/
def d5 : List Card := defaultCards.take 5

/-! ## Claims -/

/-- Claim C1: the specification says meld detection emits every maximal
same-suit run of at least 3 strictly consecutive cards, and on the hand
`[3H,4H,5H,7H]` yields exactly the run `[3H,4H,5H]`. The code does not:
`DummyAgent._find_meld` returns no candidates at all on that hand — the
scanner appends a run only once `end_run - start_run > 2` holds at the
start of a *later* iteration and never appends after the loop, so a
trailing 3-card run is never emitted. This theorem evaluates the code
at the claim's own example. -/
theorem c1_run_detection_returns_nothing :
    DummyAgent.find_meld [c3H, c4H, c5H, c7H] = Except.ok [] := by decide

/-- Claim C2: the specification says `validate_meld` with a reference to
the existing run `[4C,5C,6C]` returns `True` for proposed `[7C]` and
`False` for `[7D]`, a boolean in both cases. The code instead raises
`TypeError` on every referenced validation, because the meld index from
`ref.split(':')` is used as a `str` subscript of the melds list. -/
theorem c2_layoff_validation_raises :
    validate_meld g2.players ([c7C], some "p0:0") = Except.error PyErr.typeError ∧
    validate_meld g2.players ([c7D], some "p0:0") = Except.error PyErr.typeError := by decide

/-- Claim C3: the specification describes a successful lay-off (only the
newly proposed cards leave the hand, no referenced card is duplicated
into the new meld record). In the code no lay-off can ever succeed:
already the validation of the lay-off raises `TypeError`, so the
success path of `Human.meld` is unreachable for any referenced meld. -/
theorem c3_layoff_never_succeeds :
    human_meld_attempt g2 "p0" [c7C] (some "p0:0") = Except.error PyErr.typeError := by decide

/-- Claim C4: the specification says `score(player)` is the melded point
total minus the hand point total, e.g. meld `[10H,10S,10C]` and hand
`[AS]` score 30 - 15 = 15. For a meld record in the `(cards, ref)`
format that `Human.meld` appends, `Game.score_players` instead raises
`KeyError` (it indexes `CARD_VALUE_MAP` with `cards[0]`, a `Card`); for
the bare-list format of `DummyAgent` the formula does give 15. -/
theorem c4_score_tuple_meld_raises :
    score_player { hand := [cAS], melds := [MeldRec.tagged [c10H, c10S, c10C] none] } =
      Except.error PyErr.keyError ∧
    score_player { hand := [cAS], melds := [MeldRec.plain [c10H, c10S, c10C]] } =
      Except.ok 15 := by decide

/-- Claim C7: the specification says a stale or out-of-range meld
reference surfaces as a validation failure (`False`), never as an
unchecked access. The code raises instead: an unknown owner name raises
`KeyError` from the players-dict lookup, and for an existing owner any
index raises `TypeError` (string subscript of the melds list) before
any range check could run. -/
theorem c7_bad_reference_raises :
    validate_meld g2.players ([c7C], some "ghost:0") = Except.error PyErr.keyError ∧
    validate_meld g2.players ([c7C], some "p0:5") = Except.error PyErr.typeError := by decide

/-- Claim C9: parsing and formatting of card tokens are mutually
inverse on the 52-card model:
`string_to_card (ascii_display_card c) = c` for every default card. -/
theorem c9_parse_format_roundtrip :
    ∀ c, c ∈ defaultCards → string_to_card (ascii_display_card c) = Except.ok c := by decide

/-- Witness for C9 at the three-character token `10H`. -/
theorem c9_parse_format_roundtrip_witness :
    string_to_card (ascii_display_card ⟨"10", Suit.hearts⟩) = Except.ok ⟨"10", Suit.hearts⟩ :=
  c9_parse_format_roundtrip ⟨"10", Suit.hearts⟩ (by decide)

/-- Claim C10: constructing a deck from an empty card list does not give
an empty deck: since the constructor tests `if not cards`, `Deck([])`
holds the same full default deck as `Deck()`, 52 distinct
(rank, suit) cards. -/
theorem c10_empty_deck_arg_gives_default :
    deckInit (some []) = defaultCards ∧ deckInit none = defaultCards ∧
    (deckInit (some [])).length = 52 ∧ (deckInit (some [])).Nodup := by decide

/-- Helper: whenever `validate_meld` returns (rather than raises), the
returned card list is exactly the caller's list — the in-place
`cards.extend` sits on the reference branch, which always raises. -/
theorem validate_ok_cards_unchanged (players : List (String × PlayerSt))
    (cards res : List Card) (ref : Option String) (b : Bool)
    (h : validate_meld players (cards, ref) = Except.ok (b, res)) :
    res = cards := by
  cases ref with
  | none =>
      simp only [validate_meld, truthyRef] at h
      cases hc : check_meld_cards cards with
      | error e => rw [hc] at h; exact absurd h (by simp)
      | ok b2 =>
          rw [hc] at h
          have h2 := Except.ok.inj h
          exact ((Prod.mk.injEq b2 cards b res).mp h2).2.symm
  | some r =>
      by_cases hr : r = ""
      · subst hr
        simp only [validate_meld, truthyRef, if_pos rfl] at h
        cases hc : check_meld_cards cards with
        | error e => rw [hc] at h; exact absurd h (by simp)
        | ok b2 =>
            rw [hc] at h
            have h2 := Except.ok.inj h
            exact ((Prod.mk.injEq b2 cards b res).mp h2).2.symm
      · simp only [validate_meld, truthyRef, if_neg hr] at h
        exact absurd h (by simp)

/-- Claim C8: whenever meld validation returns `False`, no state is
mutated: the proposed card list is returned unchanged, and the
`Human.meld` caller leaves the whole game state (the acting player's
hand and melds and every other player's melds) exactly as it was. -/
theorem c8_failed_validation_no_mutation (g : GameSt) (actor : String)
    (cards res : List Card) (ref : Option String)
    (h : validate_meld g.players (cards, ref) = Except.ok (false, res)) :
    res = cards ∧ human_meld_attempt g actor cards ref = Except.ok g := by
  refine ⟨validate_ok_cards_unchanged g.players cards res ref false h, ?_⟩
  simp [human_meld_attempt, h]

/-- Witness for C8: a failing proposal (`[7D]` alone, size below 3)
leaves the proposed list and the game state of `g2` untouched. -/
theorem c8_failed_validation_witness :
    [c7D] = [c7D] ∧ human_meld_attempt g2 "p0" [c7D] none = Except.ok g2 :=
  c8_failed_validation_no_mutation g2 "p0" [c7D] [c7D] none (by decide)

/-- Claim C5: in the main game loop the game-over test runs right after
each player's turn (whose last step is the discard) and before the next
player acts. If no earlier player in the round order satisfies the test
after their turn and player `p` does, then the round stops with exactly
the players up to and including `p` having acted: the players listed
after `p` never take a turn, whatever the turn effects are. -/
theorem c5_round_ends_at_first_trigger (turnF : String → GameSt → GameSt) :
    ∀ (pre : List String) (g : GameSt) (p : String) (post : List String),
      (∀ i (h : i < pre.length),
        trigger (runPre turnF (pre.take (i + 1)) g) (pre.get ⟨i, h⟩) = false) →
      trigger (turnF p (runPre turnF pre g)) p = true →
      playRound turnF (pre ++ p :: post) g =
        (pre ++ [p], turnF p (runPre turnF pre g), true) := by
  intro pre
  induction pre with
  | nil =>
      intro g p post _ hp
      simp only [runPre] at hp
      simp [playRound, runPre, hp]
  | cons q pre2 ih =>
      intro g p post hpre hp
      have hq : trigger (turnF q g) q = false := by
        have h0 := hpre 0 (by simp)
        simpa [runPre] using h0
      have hpre2 : ∀ i (h : i < pre2.length),
          trigger (runPre turnF (pre2.take (i + 1)) (turnF q g)) (pre2.get ⟨i, h⟩) = false := by
        intro i h
        have h1 := hpre (i + 1) (by simpa using Nat.succ_lt_succ h)
        simpa [runPre] using h1
      have hp2 : trigger (turnF p (runPre turnF pre2 (turnF q g))) p = true := by
        simpa [runPre] using hp
      have hrec := ih (turnF q g) p post hpre2 hp2
      simp [playRound, hq, hrec, runPre]

/-- A one-card starting hand shared by the witness players. -/
def basePlayer : PlayerSt := { hand := [c2D], melds := [] }

/-- Witness game: three players `a`, `b`, `c` with non-empty hands and a
non-empty stock. -/
def g5 : GameSt :=
  { players := [("a", basePlayer), ("b", basePlayer), ("c", basePlayer)],
    stock := [c2D], discardPile := [] }

/-- Witness turn effect: player `b`'s turn empties their hand; other
turns change nothing. -/
def turnF0 (name : String) (g : GameSt) : GameSt :=
  if name = "b" then { g with players := updateAssoc g.players "b" { hand := [], melds := [] } }
  else g

/-- Witness for C5: with round order `a, b, c`, player `b` empties their
hand during their turn, so the round ends right there — `a` and `b`
acted and `c` never takes a turn. -/
theorem c5_round_ends_witness :
    playRound turnF0 (["a"] ++ "b" :: ["c"]) g5 =
      (["a"] ++ ["b"], turnF0 "b" (runPre turnF0 ["a"] g5), true) :=
  c5_round_ends_at_first_trigger turnF0 ["a"] g5 "b" ["c"]
    (by
      intro i h
      have hi : i = 0 := Nat.lt_one_iff.mp h
      subst hi
      show trigger (runPre turnF0 (List.take (0 + 1) ["a"]) g5) "a" = false
      decide)
    (by decide)

/-- Counterexample for C6: the claim says `deal(count, players)` fails
exactly when `count * players` exceeds the number of cards in the deck,
and otherwise returns hands of `count` cards each. On a five-card deck,
`deal(2, 3)` needs six cards yet raises nothing — the guard compares
against the constant `DECK_SIZE = 52` — and the third hand has only one
card; the empty remainder even comes back as a full default deck. -/
theorem c6_deal_counterexample :
    2 * 3 > d5.length ∧
    Deck.deal d5 2 3 = Except.ok (dealHands d5 2 3, defaultCards) ∧
    (dealHands d5 2 3).map List.length = [2, 2, 1] := by decide

/-- Claim C6 as amended: `deal(count, players)` raises (`ValueError`,
the configuration failure of the spec) exactly when `count * players`
exceeds the constant `DECK_SIZE = 52`, irrespective of the deck's
actual card count. When it returns, it returns the slices
`cards[i*count : i*count+count]` as hands together with a deck built
from the remaining cards, and the hands number `players` and have
`count` cards each provided the deck really holds at least
`count * players` cards. -/
theorem c6_deal_amended (cards : List Card) (count players : Nat) :
    (count * players > DECK_SIZE →
      Deck.deal cards count players = Except.error PyErr.valueError) ∧
    (count * players ≤ DECK_SIZE →
      Deck.deal cards count players =
        Except.ok (dealHands cards count players,
          deckInit (some (cards.drop (count * players))))) ∧
    (count * players ≤ cards.length →
      (dealHands cards count players).length = players ∧
      ∀ h2, h2 ∈ dealHands cards count players → h2.length = count) := by
  refine ⟨?_, ?_, ?_⟩
  · intro h
    simp [Deck.deal, h]
  · intro h
    simp [Deck.deal, Nat.not_lt.mpr h]
  · intro h
    refine ⟨by simp [dealHands], ?_⟩
    intro h2 hm
    simp only [dealHands, List.mem_map, List.mem_range] at hm
    obtain ⟨i, hi, rfl⟩ := hm
    have hle : i * count + count ≤ cards.length := by
      calc i * count + count = (i + 1) * count := by ring
        _ ≤ players * count := Nat.mul_le_mul_right count (Nat.succ_le_of_lt hi)
        _ = count * players := Nat.mul_comm players count
        _ ≤ cards.length := h
    rw [List.length_take, List.length_drop]
    exact Nat.min_eq_left (Nat.le_sub_of_add_le (by rw [Nat.add_comm]; exact hle))

/-- Witness for C6 (amended): on the default 52-card deck, dealing 60
cards raises, while dealing 7 cards to each of 2 players returns the
slice hands plus the remainder deck, with exactly two hands. -/
theorem c6_deal_amended_witness :
    Deck.deal defaultCards 60 1 = Except.error PyErr.valueError ∧
    Deck.deal defaultCards 7 2 =
      Except.ok (dealHands defaultCards 7 2, deckInit (some (defaultCards.drop (7 * 2)))) ∧
    (dealHands defaultCards 7 2).length = 2 :=
  ⟨(c6_deal_amended defaultCards 60 1).1 (by decide),
   (c6_deal_amended defaultCards 7 2).2.1 (by decide),
   ((c6_deal_amended defaultCards 7 2).2.2 (by decide)).1⟩
